import Mathlib

/-!
Shallow embedding of the transcription service in `src/audiototext.py`.

The file models, faithfully to the source:
- the Python string primitives the code relies on (`strip`, `lower`, `int`,
  zero padding of format specifiers);
- `format_srt_time` (subtitle timestamp rendering);
- `build_output_text` (flat text and subtitle rendering of segment lists);
- `transcribe_with_cancel` (the cancellation-checkpointed pipeline), with the
  external effects of the inference backends and the translator supplied by an
  explicit oracle structure `PEnv`;
- the `/transcribe` endpoint body (admission lock, conversion, pipeline run,
  export-cache write, guaranteed release in the `finally` block) as a state
  transformer on an explicit `ServerState`;
- the `/export` endpoint (`export_transcription`).

Numbers that are Python floats in the source are modelled as rationals.
-/

/-- Python `str.strip()` with no argument: remove leading and trailing
whitespace.  Defined structurally on the character list so that it reduces. -/
def pyStrip (s : String) : String :=
  ⟨((s.data.dropWhile Char.isWhitespace).reverse.dropWhile Char.isWhitespace).reverse⟩

/-- Python `str.lower()`. -/
def pyLower (s : String) : String :=
  ⟨s.data.map Char.toLower⟩

/-- Python `int(x)` on a number: truncation toward zero. -/
def pyInt (q : ℚ) : ℤ :=
  if 0 ≤ q then ⌊q⌋ else ⌈q⌉

/-- Zero padding of the Python format specifiers `:02` and `:03`: left-pad the
rendered number with zeros up to the requested minimum width. -/
def zeroPad (w : ℕ) (s : String) : String :=
  if s.length < w then ⟨List.replicate (w - s.length) '0' ++ s.data⟩ else s

/-- Python `x or default` for an optional string (used for
`result.get("language") or "pt"`): `None` and the empty string are falsy. -/
def pyOrDefault (raw : Option String) (dflt : String) : String :=
  match raw with
  | some s => if s = "" then dflt else s
  | none => dflt

/-- `format_srt_time` from `src/audiototext.py`:
`total_ms = int(seconds_value * 1000)`; the round trip through
`timedelta(milliseconds=total_ms).total_seconds()` yields `total_ms / 1000` and
`int` of it truncates; Python `//` is flooring division (`Int.fdiv`) and
Python `%` on a positive modulus agrees with `Int.emod`, which is `%` on `ℤ`. -/
def format_srt_time (seconds_value : ℚ) : String :=
  let total_ms : ℤ := pyInt (seconds_value * 1000)
  let total_seconds : ℤ := pyInt ((total_ms : ℚ) / 1000)
  let hours : ℤ := Int.fdiv total_seconds 3600
  let minutes : ℤ := Int.fdiv (total_seconds % 3600) 60
  let seconds : ℤ := total_seconds % 60
  let millis : ℤ := total_ms % 1000
  zeroPad 2 (toString hours) ++ ":" ++ zeroPad 2 (toString minutes) ++ ":" ++
    zeroPad 2 (toString seconds) ++ "," ++ zeroPad 3 (toString millis)

/-- The formula of the specification for subtitle time rendering, stated
directly on the total number of milliseconds (a natural number):
hours = total_seconds div 3600, minutes = (total_seconds mod 3600) div 60,
seconds = total_seconds mod 60, milliseconds = total_ms mod 1000, with
hours, minutes and seconds padded to 2 digits and milliseconds to 3. -/
def srtSpecOfMs (ms : ℕ) : String :=
  let ts : ℕ := ms / 1000
  zeroPad 2 (toString (ts / 3600)) ++ ":" ++ zeroPad 2 (toString (ts % 3600 / 60)) ++ ":" ++
    zeroPad 2 (toString (ts % 60)) ++ "," ++ zeroPad 3 (toString (ms % 1000))

/-- A transcription segment: the dictionaries produced by the whisperx calls.
Every key may be absent; `seg.get("text", "")`, `seg.get("start", 0.0)` and
`seg.get("end", seg.get("start", 0.0))` supply the defaults of the source. -/
structure Seg where
  start : Option ℚ
  stop : Option ℚ
  text : Option String
  speaker : Option String
deriving DecidableEq

/-- Truthiness of `seg.get("speaker")` in Python: the key is present and its
value is a non-empty string. -/
def speakerTruthy (seg : Seg) : Bool :=
  match seg.speaker with
  | some s => !s.isEmpty
  | none => false

/-- One iteration of the subtitle loop of `build_output_text`
(`enumerate(segments, start=1)` supplies `idx`). -/
def subtitleBlock (with_speaker : Bool) (idx : ℕ) (seg : Seg) : String :=
  let startT := format_srt_time (seg.start.getD 0)
  let endT := format_srt_time (seg.stop.getD (seg.start.getD 0))
  let text0 := pyStrip (seg.text.getD "")
  let text := if with_speaker && speakerTruthy seg
    then (seg.speaker.getD "") ++ ": " ++ text0 else text0
  toString idx ++ "\n" ++ startT ++ " --> " ++ endT ++ "\n" ++ text ++ "\n"

/-- One iteration of the flat-text loop of `build_output_text`: segments whose
stripped text is empty are skipped (`continue`), the others contribute their
stripped text, with the speaker label prepended when speaker mode is on and
the segment has a truthy speaker value. -/
def flatItem (with_speaker : Bool) (seg : Seg) : Option String :=
  let text := pyStrip (seg.text.getD "")
  if text = "" then none
  else if with_speaker && speakerTruthy seg
    then some ((seg.speaker.getD "") ++ ": " ++ text)
  else some text

/-- `build_output_text` from `src/audiototext.py`.  With `with_timestamp` it
joins one numbered block per segment with newlines and strips the result;
otherwise it joins the non-empty stripped texts with single spaces and strips
the result. -/
def build_output_text (segments : List Seg) (with_timestamp with_speaker : Bool) : String :=
  if with_timestamp then
    pyStrip (String.intercalate "\n"
      ((List.enumFrom 1 segments).map fun p => subtitleBlock with_speaker p.1 p.2))
  else
    pyStrip (String.intercalate " " (segments.filterMap (flatItem with_speaker)))

/-- One entry of the `QUALITY_CONFIG` dictionary. -/
structure QualityCfg where
  model : String
  batch_size : ℕ
  align : Bool
deriving DecidableEq

/-- `QUALITY_CONFIG.get(precision, QUALITY_CONFIG["bom"])`: the three named
presets, any other key falling back to the `bom` preset. -/
def QUALITY_CONFIG (precision : String) : QualityCfg :=
  if precision = "rapido" then ⟨"small", 16, false⟩
  else if precision = "bom" then ⟨"medium", 8, true⟩
  else if precision = "perfeito" then ⟨"large-v2", 4, true⟩
  else ⟨"medium", 8, true⟩

/-- `LANG_MAP.get(target_language, "pt")`. -/
def LANG_MAP (target_language : String) : String :=
  if target_language = "pt" then "pt"
  else if target_language = "ing" then "en"
  else if target_language = "jp" then "ja"
  else "pt"

/-- Oracle for the external effects observed by one run of
`transcribe_with_cancel`: the value of `stop_event.is_set()` at each of the
three points where the source consults it, the result of the transcription
call, and the outcomes of the best-effort stages.  `none` in `alignResult` or
`diarizeResult` models an exception raised inside the corresponding `try`
block; `none` from `translate` models an exception of the translation call for
the segment at that position. -/
structure PEnv where
  stopAt1 : Bool
  stopAt2 : Bool
  stopAtEnd : Bool
  segments : List Seg
  language : Option String
  alignResult : Option (List Seg)
  diarizeResult : Option (List Seg)
  translate : ℕ → String → Option String

/-- The body of the per-segment translation loop: empty stripped text is
skipped leaving the segment untouched; a successful call replaces the text by
the translation; a failing call replaces the text by the stripped original
(`seg["text"] = text_val`). -/
def translateSeg (translate : ℕ → String → Option String) (i : ℕ) (seg : Seg) : Seg :=
  let text_val := pyStrip (seg.text.getD "")
  if text_val = "" then seg
  else
    match translate i text_val with
    | some t => { seg with text := some t }
    | none => { seg with text := some text_val }

/-- The whole per-segment translation loop, threading the position. -/
def translateAll (translate : ℕ → String → Option String) : ℕ → List Seg → List Seg
  | _, [] => []
  | i, seg :: rest => translateSeg translate i seg :: translateAll translate (i + 1) rest

/-- The quadruple returned by `transcribe_with_cancel`:
`(aborted, text, segments, detected_language)`. -/
structure TResult where
  aborted : Bool
  text : String
  segments : List Seg
  detected_language : String
deriving DecidableEq

/-- `transcribe_with_cancel` from `src/audiototext.py`.  The stop event is
consulted after loading the audio, after the raw transcription, and at the
final return; alignment runs only for a non-empty segment list when the
quality preset enables it and keeps the previous segments unless it returns a
non-empty list; diarization runs only in speaker mode on a non-empty list and
on an exception assigns the default narrator label to segments lacking one;
translation runs per segment when the mapped target language differs from the
detected language. -/
def transcribe_with_cancel (env : PEnv) (with_timestamp with_speaker : Bool)
    (target_language precision : String) : TResult :=
  let cfg := QUALITY_CONFIG precision
  if env.stopAt1 then ⟨true, "", [], "pt"⟩
  else
    let segments := env.segments
    let detected_language := pyOrDefault env.language "pt"
    if env.stopAt2 then
      ⟨true, build_output_text segments with_timestamp false, segments, detected_language⟩
    else
      let segments1 :=
        if segments ≠ [] ∧ cfg.align = true then
          match env.alignResult with
          | some aligned => if aligned ≠ [] then aligned else segments
          | none => segments
        else segments
      let segments2 :=
        if with_speaker = true ∧ segments1 ≠ [] then
          match env.diarizeResult with
          | some assigned => if assigned ≠ [] then assigned else segments1
          | none => segments1.map fun seg =>
              match seg.speaker with
              | some _ => seg
              | none => { seg with speaker := some "NARRADOR" }
        else segments1
      let target_code := LANG_MAP target_language
      let segments3 :=
        if target_code ≠ detected_language ∧ segments2 ≠ [] then
          translateAll env.translate 0 segments2
        else segments2
      ⟨env.stopAtEnd, build_output_text segments3 with_timestamp with_speaker,
        segments3, detected_language⟩

/-- The single record held in `last_export_payload`. -/
structure ExportPayload where
  job_id : String
  txt : String
  srt : Option String
  srt_enabled : Bool
deriving DecidableEq

/-- The outcomes of the `/export` endpoint: 404 when the identifier does not
match the stored record, 400 for an unknown format, 400 when subtitle output
is requested but unavailable, and otherwise a downloadable attachment. -/
inductive ExportResult where
  | notFound
  | invalidFormat
  | srtUnavailable
  | attachment (content media_type filename : String)
deriving DecidableEq

/-- Truthiness check `not data.get("srt")`: the stored subtitle rendering is
absent or empty. -/
def srtFalsy (srt : Option String) : Bool :=
  match srt with
  | some s => s.isEmpty
  | none => true

/-- `export_transcription` from `src/audiototext.py`. -/
def export_transcription (store : Option ExportPayload) (job_id formato : String) :
    ExportResult :=
  match store with
  | none => .notFound
  | some data =>
    if data.job_id ≠ job_id then .notFound
    else
      let fmt := pyStrip (pyLower formato)
      if fmt ≠ "txt" ∧ fmt ≠ "srt" then .invalidFormat
      else if fmt = "srt" then
        if data.srt_enabled = false ∨ srtFalsy data.srt = true then .srtUnavailable
        else .attachment (data.srt.getD "") "application/x-subrip"
          ("transcricao_" ++ job_id ++ ".srt")
      else .attachment data.txt "text/plain; charset=utf-8"
        ("transcricao_" ++ job_id ++ ".txt")

/-- The process-wide mutable state of the service: the admission lock
`current_task_lock`, whether `current_stop_event` is set to an event, and the
export cache `last_export_payload`. -/
structure ServerState where
  lockHeld : Bool
  stopEventActive : Bool
  lastExport : Option ExportPayload
deriving DecidableEq

/-- The form parameters of a `/transcribe` request. -/
structure TranscribeRequest where
  timestamp : Bool
  diferenciar_narrador : Bool
  idioma : String
  precisao : String

/-- Oracle for the external effects of one `/transcribe` request: a failing
audio conversion (`ffmpeg.Error`, carrying the diagnostic), any other
exception escaping the `try` body, the generated job identifier, and the
oracle for the pipeline run. -/
structure JobEnv where
  convertError : Option String
  otherError : Option String
  job_id : String
  penv : PEnv

/-- The responses of the `/transcribe` endpoint: 429 busy, 400 conversion
failure, 500 pipeline failure, or the JSON payload of a completed (possibly
aborted) job. -/
inductive TranscribeResponse where
  | busy
  | conversionFailure (detail : String)
  | pipelineFailure (detail : String)
  | ok (text : String) (aborted : Bool) (job_id : String)
      (timestamp_enabled : Bool) (detected_language : String)

/-- The `try` body of the `/transcribe` endpoint, entered with the lock held:
convert the upload, run the pipeline in the executor, write the export cache,
and build the response.  Exceptions short-circuit past the cache write. -/
def runJob (st : ServerState) (env : JobEnv) (req : TranscribeRequest) :
    TranscribeResponse × ServerState :=
  match env.convertError with
  | some e => (.conversionFailure e, st)
  | none =>
    match env.otherError with
    | some e => (.pipelineFailure e, st)
    | none =>
      let r := transcribe_with_cancel env.penv req.timestamp req.diferenciar_narrador
        req.idioma req.precisao
      let txt_content := build_output_text r.segments false req.diferenciar_narrador
      let srt_content := if req.timestamp
        then some (build_output_text r.segments true req.diferenciar_narrador) else none
      let payload : ExportPayload := ⟨env.job_id, txt_content, srt_content, req.timestamp⟩
      (.ok r.text r.aborted env.job_id req.timestamp r.detected_language,
        { st with lastExport := some payload })

/-- The `/transcribe` endpoint.  `current_task_lock.acquire(blocking=False)`
fails immediately when the lock is held and the handler raises 429 before the
`try` block; otherwise a fresh stop event is installed, the body runs, and the
`finally` block releases the lock (it is always held there, since the body
never releases it) and clears the stop event, whatever the outcome was. -/
def transcribe (st : ServerState) (env : JobEnv) (req : TranscribeRequest) :
    TranscribeResponse × ServerState :=
  if st.lockHeld then (.busy, st)
  else
    let stHeld : ServerState := { st with lockHeld := true, stopEventActive := true }
    let body := runJob stHeld env req
    (body.1, { body.2 with lockHeld := false, stopEventActive := false })

/-! ### Helper lemmas -/

/-- Rendering a natural number cast to `ℤ` gives the same digits. -/
theorem toString_intCast (n : ℕ) : toString ((n : ℤ)) = toString n := rfl

/-- `pyInt` is the floor on non-negative inputs. -/
theorem pyInt_of_nonneg {q : ℚ} (h : 0 ≤ q) : pyInt q = ⌊q⌋ := if_pos h

/-- `runJob` never produces the busy response. -/
theorem runJob_ne_busy (st : ServerState) (env : JobEnv) (req : TranscribeRequest) :
    (runJob st env req).1 ≠ TranscribeResponse.busy := by
  unfold runJob
  cases env.convertError <;> cases env.otherError <;> simp

/-- Concrete request used by the witnesses. -/
def req0 : TranscribeRequest := ⟨false, false, "pt", "bom"⟩

/-- Concrete pipeline oracle used by the witnesses. -/
def penv0 : PEnv := ⟨false, false, false, [], some "pt", none, none, fun _ _ => none⟩

/-- Concrete job oracle used by the witnesses. -/
def jobEnv0 : JobEnv := ⟨none, none, "job-1", penv0⟩

/-! ### Claims -/

/-- Claim C1: a submission that arrives while the single job slot is held
receives the distinct busy response immediately, with the server state (lock,
stop event, export cache) untouched; it is never queued. -/
theorem busy_rejection (st : ServerState) (env : JobEnv) (req : TranscribeRequest)
    (h : st.lockHeld = true) :
    transcribe st env req = (TranscribeResponse.busy, st) := by
  simp [transcribe, h]

-- Witness for C1.
theorem busy_rejection_witness :
    transcribe ⟨true, true, none⟩ jobEnv0 req0 = (TranscribeResponse.busy, ⟨true, true, none⟩) :=
  busy_rejection ⟨true, true, none⟩ jobEnv0 req0 rfl

/-- Claim C2: a submission that acquires the slot always leaves the slot free
again after the pipeline, whatever the outcome was (success, abort via the
stop event, conversion failure, or any other failure), so a subsequent
submission is never rejected as busy. -/
theorem lock_release (st : ServerState) (env : JobEnv) (req : TranscribeRequest)
    (h : st.lockHeld = false) :
    (transcribe st env req).2.lockHeld = false ∧
      ∀ env2 req2, (transcribe (transcribe st env req).2 env2 req2).1 ≠
        TranscribeResponse.busy := by
  have hfst : (transcribe st env req).2.lockHeld = false := by
    simp [transcribe, h]
  refine ⟨hfst, fun env2 req2 => ?_⟩
  rw [transcribe, if_neg (by simp [hfst])]
  exact runJob_ne_busy _ _ _

-- Witness for C2.
theorem lock_release_witness :
    (transcribe ⟨false, false, none⟩ jobEnv0 req0).2.lockHeld = false ∧
      ∀ env2 req2, (transcribe (transcribe ⟨false, false, none⟩ jobEnv0 req0).2 env2 req2).1 ≠
        TranscribeResponse.busy :=
  lock_release ⟨false, false, none⟩ jobEnv0 req0 rfl

/-- Claim C3: when cancellation is signaled after the transcription stage but
before the later stages, the pipeline returns at the post-transcription
checkpoint with the aborted flag set and with the text rendered from the raw
transcribed segments, untranslated and unmodified. -/
theorem cancel_after_transcription (env : PEnv) (wt ws : Bool) (tl pr : String)
    (h1 : env.stopAt1 = false) (h2 : env.stopAt2 = true) :
    transcribe_with_cancel env wt ws tl pr =
      ⟨true, build_output_text env.segments wt false, env.segments,
        pyOrDefault env.language "pt"⟩ := by
  simp [transcribe_with_cancel, h1, h2]

/-- Concrete pipeline oracle with the stop event set at the
post-transcription checkpoint. -/
def envAbort : PEnv :=
  ⟨false, true, true, [⟨none, none, some "ola", none⟩], some "pt", none, none,
    fun _ _ => none⟩

-- Witness for C3.
theorem cancel_after_transcription_witness :
    transcribe_with_cancel envAbort true true "ing" "bom" =
      ⟨true, build_output_text envAbort.segments true false, envAbort.segments,
        pyOrDefault envAbort.language "pt"⟩ :=
  cancel_after_transcription envAbort true true "ing" "bom" rfl rfl

/-- Claim C10: at the post-transcription cancellation checkpoint the partial
text is rendered with speaker labelling hard-disabled, even for a job
submitted with speaker labels enabled; the timestamp option is honoured. -/
theorem cancel_disables_speaker (env : PEnv) (wt : Bool) (tl pr : String)
    (h1 : env.stopAt1 = false) (h2 : env.stopAt2 = true) :
    (transcribe_with_cancel env wt true tl pr).text =
      build_output_text env.segments wt false ∧
    (transcribe_with_cancel env wt true tl pr).aborted = true := by
  simp [transcribe_with_cancel, h1, h2]

/-- Concrete pipeline oracle whose transcription carries speaker labels and
whose stop event fires at the post-transcription checkpoint. -/
def envSpk : PEnv :=
  ⟨false, true, true, [⟨none, none, some "ola", some "SPEAKER_00"⟩], some "pt",
    none, none, fun _ _ => none⟩

-- Witness for C10.
theorem cancel_disables_speaker_witness :
    (transcribe_with_cancel envSpk false true "pt" "bom").text =
      build_output_text envSpk.segments false false ∧
    (transcribe_with_cancel envSpk false true "pt" "bom").aborted = true :=
  cancel_disables_speaker envSpk false "pt" "bom" rfl rfl

/-- The source rendering agrees with the specification formula on every
non-negative input. -/
theorem format_srt_time_eq_spec (q : ℚ) (hq : 0 ≤ q) :
    format_srt_time q = srtSpecOfMs (⌊q * 1000⌋).toNat := by
  have hq1000 : (0 : ℚ) ≤ q * 1000 := by positivity
  have hfl : (0 : ℤ) ≤ ⌊q * 1000⌋ := Int.floor_nonneg.mpr hq1000
  set n : ℕ := (⌊q * 1000⌋).toNat with hndef
  have hn : ⌊q * 1000⌋ = (n : ℤ) := by omega
  have hms : pyInt (q * 1000) = (n : ℤ) := by rw [pyInt_of_nonneg hq1000, hn]
  have hts : pyInt (((n : ℤ) : ℚ) / 1000) = ((n / 1000 : ℕ) : ℤ) := by
    rw [pyInt_of_nonneg (by positivity)]
    have h := Rat.floor_natCast_div_natCast n 1000
    push_cast at h ⊢
    omega
  have h1 : Int.fdiv ((n / 1000 : ℕ) : ℤ) 3600 = (((n / 1000) / 3600 : ℕ) : ℤ) := by
    rw [Int.fdiv_eq_ediv _ (by norm_num)]
    omega
  have h2 : Int.fdiv (((n / 1000 : ℕ) : ℤ) % 3600) 60 =
      ((n / 1000 % 3600 / 60 : ℕ) : ℤ) := by
    rw [show ((n / 1000 : ℕ) : ℤ) % 3600 = ((n / 1000 % 3600 : ℕ) : ℤ) by omega,
      Int.fdiv_eq_ediv _ (by norm_num)]
    omega
  have h3 : ((n / 1000 : ℕ) : ℤ) % 60 = ((n / 1000 % 60 : ℕ) : ℤ) := by omega
  have h4 : ((n : ℤ)) % 1000 = ((n % 1000 : ℕ) : ℤ) := by omega
  simp only [format_srt_time, srtSpecOfMs, hms, hts, h1, h2, h3, h4, toString_intCast]

/-- Claim C4: for every non-negative seconds value the rendered timestamp is
`HH:MM:SS,mmm` computed from `floor(seconds * 1000)` milliseconds by the div
and mod decomposition of the specification, with 2-digit padding for hours,
minutes and seconds and 3-digit padding for milliseconds; in particular
`1.234` renders as `00:00:01,234` and `3661.5` as `01:01:01,500`. -/
theorem srt_time_formula (q : ℚ) (hq : 0 ≤ q) :
    format_srt_time q = srtSpecOfMs (⌊q * 1000⌋).toNat ∧
      format_srt_time (1.234 : ℚ) = "00:00:01,234" ∧
      format_srt_time (3661.5 : ℚ) = "01:01:01,500" := by
  refine ⟨format_srt_time_eq_spec q hq, ?_, ?_⟩
  · rw [format_srt_time_eq_spec (1.234 : ℚ) (by norm_num),
      show ⌊(1.234 : ℚ) * 1000⌋ = 1234 from by norm_num [Int.floor_eq_iff]]
    rfl
  · rw [format_srt_time_eq_spec (3661.5 : ℚ) (by norm_num),
      show ⌊(3661.5 : ℚ) * 1000⌋ = 3661500 from by norm_num [Int.floor_eq_iff]]
    rfl

-- Witness for C4.
theorem srt_time_formula_witness :
    format_srt_time 0 = srtSpecOfMs (⌊(0 : ℚ) * 1000⌋).toNat ∧
      format_srt_time (1.234 : ℚ) = "00:00:01,234" ∧
      format_srt_time (3661.5 : ℚ) = "01:01:01,500" :=
  srt_time_formula 0 le_rfl

/-- Claim C5: flat-text rendering drops every segment whose text is empty
after stripping and joins the remaining stripped texts with single spaces;
with speaker labels enabled, a remaining segment carrying a speaker value is
rendered as the label followed by a colon and space and then its text. -/
theorem flat_text_formatting (ws : Bool) (segs : List Seg) :
    build_output_text segs false ws =
      pyStrip (String.intercalate " " (segs.filterMap fun seg =>
        let t := pyStrip (seg.text.getD "")
        if t = "" then none
        else if ws && speakerTruthy seg then some ((seg.speaker.getD "") ++ ": " ++ t)
        else some t)) ∧
    ∀ seg, pyStrip (seg.text.getD "") = "" →
      build_output_text (seg :: segs) false ws = build_output_text segs false ws := by
  refine ⟨rfl, fun seg h => ?_⟩
  simp [build_output_text, List.filterMap_cons, flatItem, h]

-- Witness for C5.
theorem flat_text_formatting_witness :
    build_output_text [⟨none, none, some "  ", none⟩] false true =
      build_output_text [] false true :=
  (flat_text_formatting true []).2 ⟨none, none, some "  ", none⟩ rfl

/-- Claim C9: subtitle rendering emits one numbered block per segment, indexed
from 1 in order, dropping none of them; a segment whose stripped text is empty
still yields its block, whereas flat-text mode renders that same segment list
to the empty string. -/
theorem subtitle_blocks_per_segment (segs : List Seg) (ws : Bool) :
    build_output_text segs true ws =
      pyStrip (String.intercalate "\n"
        ((List.enumFrom 1 segs).map fun p => subtitleBlock ws p.1 p.2)) ∧
    ((List.enumFrom 1 segs).map fun p => subtitleBlock ws p.1 p.2).length = segs.length ∧
    (List.enumFrom 1 segs).map Prod.fst = List.range' 1 segs.length ∧
    build_output_text [⟨none, none, some "   ", none⟩] false false = "" := by
  refine ⟨rfl, ?_, List.enumFrom_map_fst 1 segs, rfl⟩
  simp

/-- Pipeline oracle whose single transcribed segment carries surrounding
whitespace in its text and whose translation call fails. -/
def envTransFail : PEnv :=
  ⟨false, false, false, [⟨none, none, some " hi ", none⟩], some "pt", none, none,
    fun _ _ => none⟩

/-- Counterexample to claim C6 as stated: with the translation stage active
(target language `ing`, detected language `pt`) and the translation call
failing, the segment text `" hi "` is rewritten to `"hi"` — the failure does
alter the text of the segment, by stripping its surrounding whitespace. -/
theorem translation_failure_counterexample :
    envTransFail.segments.map Seg.text = [some " hi "] ∧
    (transcribe_with_cancel envTransFail false false "ing" "rapido").segments.map Seg.text =
      [some "hi"] ∧
    (transcribe_with_cancel envTransFail false false "ing" "rapido").segments ≠
      envTransFail.segments := by
  refine ⟨rfl, rfl, ?_⟩
  decide

/-- `getElem?` commutes with the translation loop: the output segment at each
position is obtained from the input segment at the same position by its own
translation call only. -/
theorem translateAll_getElem (translate : ℕ → String → Option String)
    (segs : List Seg) (k i : ℕ) :
    (translateAll translate k segs)[i]? = segs[i]?.map (translateSeg translate (k + i)) := by
  induction segs generalizing k i with
  | nil => simp [translateAll]
  | cons s rest ih =>
    cases i with
    | zero => simp [translateAll]
    | succ j =>
      simp only [translateAll, List.getElem?_cons_succ]
      rw [ih (k + 1) j, show k + 1 + j = k + (j + 1) from by omega]

/-- Claim C6 (amended): a failing translation call for a segment keeps the
segment and its content but rewrites its text to the stripped original text
(so the text may differ from the original by surrounding whitespace only),
and it does not fail the job; failures are strictly per-segment, each output
segment depending only on the input segment at its own position and its own
translation call. -/
theorem translation_failure_per_segment (translate : ℕ → String → Option String)
    (segs : List Seg) (i : ℕ) (seg : Seg)
    (h1 : pyStrip (seg.text.getD "") ≠ "")
    (h2 : translate i (pyStrip (seg.text.getD "")) = none) :
    (translateSeg translate i seg).text = some (pyStrip (seg.text.getD "")) ∧
    (translateAll translate 0 segs)[i]? = segs[i]?.map (translateSeg translate i) := by
  constructor
  · simp [translateSeg, h1, h2]
  · rw [translateAll_getElem, Nat.zero_add]

-- Witness for C6 (amended).
theorem translation_failure_per_segment_witness :
    (translateSeg (fun _ _ => none) 0 ⟨none, none, some " hi ", none⟩).text =
      some (pyStrip ((⟨none, none, some " hi ", none⟩ : Seg).text.getD "")) ∧
    (translateAll (fun _ _ => none) 0 envTransFail.segments)[0]? =
      envTransFail.segments[0]?.map (translateSeg (fun _ _ => none) 0) :=
  translation_failure_per_segment (fun _ _ => none) envTransFail.segments 0
    ⟨none, none, some " hi ", none⟩ (by decide) rfl

/-- Claim C7: an export request whose identifier does not match the stored
record — because nothing is stored or because the stored record (the most
recently completed job, the only one retained) has a different identifier —
returns the not-found failure. -/
theorem export_not_found (store : Option ExportPayload) (job_id formato : String)
    (h : ∀ p, store = some p → p.job_id ≠ job_id) :
    export_transcription store job_id formato = ExportResult.notFound := by
  cases store with
  | none => rfl
  | some p =>
    simp only [export_transcription]
    rw [if_pos (h p rfl)]

/-- Concrete export record of an earlier job. -/
def payloadOld : ExportPayload := ⟨"job-old", "texto", none, false⟩

-- Witness for C7.
theorem export_not_found_witness :
    export_transcription (some payloadOld) "job-new" "txt" = ExportResult.notFound :=
  export_not_found (some payloadOld) "job-new" "txt" (fun p hp => by cases hp; decide)

/-- Subtitle export of a record stored with subtitle output disabled fails
with the dedicated unavailability error. -/
theorem export_srt_of_disabled (p : ExportPayload) (h : p.srt_enabled = false) :
    export_transcription (some p) p.job_id "srt" = ExportResult.srtUnavailable := by
  have hfmt : pyStrip (pyLower "srt") = "srt" := rfl
  simp [export_transcription, hfmt, h]

/-- Plain-text export of a stored record for its own identifier always
succeeds with the stored text. -/
theorem export_txt_ok (p : ExportPayload) :
    export_transcription (some p) p.job_id "txt" =
      ExportResult.attachment p.txt "text/plain; charset=utf-8"
        ("transcricao_" ++ p.job_id ++ ".txt") := by
  have hfmt : pyStrip (pyLower "txt") = "txt" := rfl
  simp [export_transcription, hfmt]

/-- Claim C8: a job submitted with timestamps disabled that completes stores
an export record with subtitle output disabled; for that record, subtitle
export returns the format-unavailable failure while plain-text export of the
same identifier succeeds. -/
theorem export_timestamps_disabled (st : ServerState) (env : JobEnv)
    (req : TranscribeRequest) (hlock : st.lockHeld = false)
    (hts : req.timestamp = false) (hconv : env.convertError = none)
    (herr : env.otherError = none) :
    ∃ p : ExportPayload, (transcribe st env req).2.lastExport = some p ∧
      p.srt_enabled = false ∧
      export_transcription (some p) p.job_id "srt" = ExportResult.srtUnavailable ∧
      export_transcription (some p) p.job_id "txt" =
        ExportResult.attachment p.txt "text/plain; charset=utf-8"
          ("transcricao_" ++ p.job_id ++ ".txt") := by
  have hrun : (transcribe st env req).2.lastExport = some ⟨env.job_id,
      build_output_text (transcribe_with_cancel env.penv req.timestamp
        req.diferenciar_narrador req.idioma req.precisao).segments false
        req.diferenciar_narrador, none, false⟩ := by
    simp [transcribe, hlock, runJob, hconv, herr, hts]
  exact ⟨_, hrun, rfl, export_srt_of_disabled _ rfl, export_txt_ok _⟩

-- Witness for C8.
theorem export_timestamps_disabled_witness :
    ∃ p : ExportPayload,
      (transcribe ⟨false, false, none⟩ jobEnv0 req0).2.lastExport = some p ∧
      p.srt_enabled = false ∧
      export_transcription (some p) p.job_id "srt" = ExportResult.srtUnavailable ∧
      export_transcription (some p) p.job_id "txt" =
        ExportResult.attachment p.txt "text/plain; charset=utf-8"
          ("transcricao_" ++ p.job_id ++ ".txt") :=
  export_timestamps_disabled ⟨false, false, none⟩ jobEnv0 req0 rfl rfl rfl rfl
